import Mathlib

/-!
Verification of the ecommerce-store deployment orchestrator.

The repository consists of two bash deployment scripts, `deployment.sh`
(full Istio profile on a kind cluster) and `miniIstio.sh` (resource
constrained minikube variant), plus the backend's datastore bootstrap
`backend/db.js`.  This file shallowly embeds the Kubernetes manifests the
scripts apply, the per-stage behaviour of the scripts (cluster
provisioning, namespace reconciliation, tool installation), the scripts'
sequential `set -e` control flow as a small command semantics, and the
backend's connection-string check, and proves the specified properties
about them.
-/

namespace EcommerceStore

/-! ## String constants shared by both scripts (variable block of each script) -/

/-- Target namespace, `NAMESPACE="helix"` in both scripts. -/
def NAMESPACE : String := "helix"

/-- Backend image reference, from the variable block of both scripts. -/
def BACKEND_IMAGE : String := "krishangunjyal/ecommerce-backend:latest"

/-- Frontend image reference, from the variable block of both scripts. -/
def FRONTEND_IMAGE : String := "krishangunjyal/ecommerce-frontend:latest"

/-! ## Kubernetes manifest data model -/

/-- CPU/memory pair used in requests and limits blocks. -/
structure ResourceRequests where
  cpu : String
  memory : String
deriving DecidableEq

/-- A container resources block (requests and limits). -/
structure ResourceBlock where
  requests : ResourceRequests
  limits : ResourceRequests
deriving DecidableEq

/-- One `env:` entry of a container. -/
structure EnvVar where
  name : String
  value : String
deriving DecidableEq

/-- A single container spec as used by the manifests in the scripts. -/
structure ContainerSpec where
  name : String
  image : String
  containerPort : Nat
  env : List EnvVar
  resources : Option ResourceBlock
  volumeMounts : List (String × String)
deriving DecidableEq

/-- One `ports:` entry of a Service. -/
structure ServicePort where
  port : Nat
  targetPort : Nat
deriving DecidableEq

/-- A v1 Service manifest. -/
structure ServiceSpec where
  name : String
  ns : String
  ports : List ServicePort
  selector : List (String × String)
deriving DecidableEq

/-- An apps/v1 Deployment manifest (single-container, as in the scripts). -/
structure DeploymentSpec where
  name : String
  ns : String
  replicas : Nat
  container : ContainerSpec
deriving DecidableEq

/-- A volumeClaimTemplates entry of a StatefulSet. -/
structure VolumeClaimTemplate where
  name : String
  accessModes : List String
  storage : String
deriving DecidableEq

/-- An apps/v1 StatefulSet manifest (single-container, as in the scripts). -/
structure StatefulSetSpec where
  name : String
  ns : String
  serviceName : String
  replicas : Nat
  container : ContainerSpec
  volumeClaimTemplates : List VolumeClaimTemplate
deriving DecidableEq

/-- One `servers:` entry of an Istio Gateway. -/
structure GatewayServer where
  portNumber : Nat
  portName : String
  protocol : String
  hosts : List String
deriving DecidableEq

/-- An Istio Gateway manifest. -/
structure GatewaySpec where
  name : String
  ns : String
  selector : List (String × String)
  servers : List GatewayServer
deriving DecidableEq

/-- A route destination (host and port number) of a VirtualService rule. -/
structure Destination where
  host : String
  portNumber : Nat
deriving DecidableEq

/-- One entry of the `http:` route table of a VirtualService.  `uriPre`
embeds the optional `match: - uri: prefix:` clause; `none` is the
catch-all rule that carries no match clause. -/
structure HttpRule where
  uriPre : Option String
  dest : Destination
deriving DecidableEq

/-- An Istio VirtualService manifest. -/
structure VirtualServiceSpec where
  name : String
  ns : String
  hosts : List String
  gateways : List String
  http : List HttpRule
deriving DecidableEq

/-! ## Concrete manifests of deployment.sh -/

/-- The MongoDB connection string interpolated at deployment.sh line 145
into the backend Deployment's MONGO_URI env value. -/
def backendMongoUriFull : String :=
  "mongodb://mongo." ++ NAMESPACE ++ ".svc.cluster.local:27017/ecommerceDB"

/-- The MongoDB URI echoed in the final report of deployment.sh (line 243). -/
def reportedMongoUriFull : String :=
  "mongodb://mongo." ++ NAMESPACE ++ ".svc.cluster.local:27017/ecommerceDB"

/-- Env var name of the backend's datastore binding. -/
def mongoUriKey : String := "MONGO_URI"

/-- The mongo Service, deployment.sh lines 75-85. -/
def mongoServiceFull : ServiceSpec :=
  ⟨"mongo", NAMESPACE, [⟨27017, 27017⟩], [("app", "mongo")]⟩

/-- The mongo StatefulSet, deployment.sh lines 87-118. -/
def mongoStatefulSetFull : StatefulSetSpec :=
  ⟨"mongo", NAMESPACE, "mongo", 1,
    ⟨"mongo", "mongo:6.0", 27017, [], none,
      [("mongo-persistent-storage", "/data/db")]⟩,
    [⟨"mongo-persistent-storage", ["ReadWriteOnce"], "1Gi"⟩]⟩

/-- The ecommerce-backend Deployment, deployment.sh lines 123-145. -/
def backendDeploymentFull : DeploymentSpec :=
  ⟨"ecommerce-backend", NAMESPACE, 1,
    ⟨"ecommerce-backend", BACKEND_IMAGE, 5000,
      [⟨mongoUriKey, backendMongoUriFull⟩], none, []⟩⟩

/-- The ecommerce-backend Service, deployment.sh lines 147-158. -/
def backendServiceFull : ServiceSpec :=
  ⟨"ecommerce-backend", NAMESPACE, [⟨80, 5000⟩], [("app", "ecommerce-backend")]⟩

/-- The ecommerce-frontend Deployment, deployment.sh lines 160-179. -/
def frontendDeploymentFull : DeploymentSpec :=
  ⟨"ecommerce-frontend", NAMESPACE, 1,
    ⟨"ecommerce-frontend", FRONTEND_IMAGE, 80, [], none, []⟩⟩

/-- The ecommerce-frontend Service, deployment.sh lines 181-192. -/
def frontendServiceFull : ServiceSpec :=
  ⟨"ecommerce-frontend", NAMESPACE, [⟨80, 80⟩], [("app", "ecommerce-frontend")]⟩

/-- The path literal of the API route match clause in both scripts. -/
def apiPrefixStr : String := "/api"

/-- Backend route destination of the VirtualService (both scripts). -/
def backendDest : Destination :=
  ⟨"ecommerce-backend." ++ NAMESPACE ++ ".svc.cluster.local", 80⟩

/-- Frontend route destination of the VirtualService (both scripts). -/
def frontendDest : Destination :=
  ⟨"ecommerce-frontend." ++ NAMESPACE ++ ".svc.cluster.local", 80⟩

/-- The ecommerce-gateway Gateway, deployment.sh lines 194-208. -/
def ecommerceGatewayFull : GatewaySpec :=
  ⟨"ecommerce-gateway", NAMESPACE, [("istio", "ingressgateway")],
    [⟨80, "http", "HTTP", ["*"]⟩]⟩

/-- The ecommerce-virtualservice VirtualService, deployment.sh lines 210-233. -/
def ecommerceVirtualServiceFull : VirtualServiceSpec :=
  ⟨"ecommerce-virtualservice", NAMESPACE, ["*"], ["ecommerce-gateway"],
    [⟨some apiPrefixStr, backendDest⟩, ⟨none, frontendDest⟩]⟩

/-! ## Concrete manifests of miniIstio.sh -/

/-- The MongoDB connection string interpolated at miniIstio.sh line 130. -/
def backendMongoUriMini : String :=
  "mongodb://mongo." ++ NAMESPACE ++ ".svc.cluster.local:27017/ecommerceDB"

/-- The MongoDB URI echoed in the final report of miniIstio.sh (line 246). -/
def reportedMongoUriMini : String :=
  "mongodb://mongo." ++ NAMESPACE ++ ".svc.cluster.local:27017/ecommerceDB"

/-- The mongo Service, miniIstio.sh lines 52-62. -/
def mongoServiceMini : ServiceSpec :=
  ⟨"mongo", NAMESPACE, [⟨27017, 27017⟩], [("app", "mongo")]⟩

/-- The mongo StatefulSet, miniIstio.sh lines 64-102 (with resource limits). -/
def mongoStatefulSetMini : StatefulSetSpec :=
  ⟨"mongo", NAMESPACE, "mongo", 1,
    ⟨"mongo", "mongo:6.0", 27017, [],
      some ⟨⟨"50m", "128Mi"⟩, ⟨"100m", "256Mi"⟩⟩,
      [("mongo-persistent-storage", "/data/db")]⟩,
    [⟨"mongo-persistent-storage", ["ReadWriteOnce"], "1Gi"⟩]⟩

/-- The ecommerce-backend Deployment, miniIstio.sh lines 108-137. -/
def backendDeploymentMini : DeploymentSpec :=
  ⟨"ecommerce-backend", NAMESPACE, 1,
    ⟨"ecommerce-backend", BACKEND_IMAGE, 5000,
      [⟨mongoUriKey, backendMongoUriMini⟩],
      some ⟨⟨"10m", "64Mi"⟩, ⟨"50m", "128Mi"⟩⟩, []⟩⟩

/-- The ecommerce-backend Service, miniIstio.sh lines 139-150. -/
def backendServiceMini : ServiceSpec :=
  ⟨"ecommerce-backend", NAMESPACE, [⟨80, 5000⟩], [("app", "ecommerce-backend")]⟩

/-- The ecommerce-frontend Deployment, miniIstio.sh lines 152-178. -/
def frontendDeploymentMini : DeploymentSpec :=
  ⟨"ecommerce-frontend", NAMESPACE, 1,
    ⟨"ecommerce-frontend", FRONTEND_IMAGE, 80, [],
      some ⟨⟨"10m", "64Mi"⟩, ⟨"50m", "128Mi"⟩⟩, []⟩⟩

/-- The ecommerce-frontend Service, miniIstio.sh lines 180-191. -/
def frontendServiceMini : ServiceSpec :=
  ⟨"ecommerce-frontend", NAMESPACE, [⟨80, 80⟩], [("app", "ecommerce-frontend")]⟩

/-- The ecommerce-gateway Gateway, miniIstio.sh lines 197-211. -/
def ecommerceGatewayMini : GatewaySpec :=
  ⟨"ecommerce-gateway", NAMESPACE, [("istio", "ingressgateway")],
    [⟨80, "http", "HTTP", ["*"]⟩]⟩

/-- The ecommerce-virtualservice VirtualService, miniIstio.sh lines 213-236. -/
def ecommerceVirtualServiceMini : VirtualServiceSpec :=
  ⟨"ecommerce-virtualservice", NAMESPACE, ["*"], ["ecommerce-gateway"],
    [⟨some apiPrefixStr, backendDest⟩, ⟨none, frontendDest⟩]⟩

/-! ## VirtualService route resolution

Istio evaluates the `http:` rules of a VirtualService top to bottom; the
first rule whose match clause holds (a rule without a match clause holds
for every request) determines the destination. -/

/-- Whether one http rule matches a request path: a rule with a uri
prefix clause matches the paths with that prefix, a rule without a
match clause matches every path. -/
def matchesRule (r : HttpRule) (path : String) : Bool :=
  match r.uriPre with
  | none => true
  | some p => p.isPrefixOf path

/-- First-match-wins route resolution over an http rule table. -/
def resolve (rules : List HttpRule) (path : String) : Option Destination :=
  match rules with
  | [] => none
  | r :: rest => if matchesRule r path then some r.dest else resolve rest path

/-! ## Resource identities applied by each script -/

/-- The kinds of cluster objects the scripts apply. -/
inductive K8sKind where
  | service
  | deployment
  | statefulSet
  | gateway
  | virtualService
deriving DecidableEq

/-- Identity of one applied cluster object (kind plus metadata name). -/
structure Resource where
  kind : K8sKind
  name : String
deriving DecidableEq

/-- Resources of the first heredoc of deployment.sh (lines 74-119), in
document order: the mongo Service, then the mongo StatefulSet. -/
def mongoManifestsFull : List Resource :=
  [⟨K8sKind.service, "mongo"⟩, ⟨K8sKind.statefulSet, "mongo"⟩]

/-- Resources of the second heredoc of deployment.sh (lines 122-234), in
document order: backend Deployment and Service, frontend Deployment and
Service, the Gateway, and the VirtualService. -/
def appManifestsFull : List Resource :=
  [⟨K8sKind.deployment, "ecommerce-backend"⟩,
   ⟨K8sKind.service, "ecommerce-backend"⟩,
   ⟨K8sKind.deployment, "ecommerce-frontend"⟩,
   ⟨K8sKind.service, "ecommerce-frontend"⟩,
   ⟨K8sKind.gateway, "ecommerce-gateway"⟩,
   ⟨K8sKind.virtualService, "ecommerce-virtualservice"⟩]

/-- Resources of the first heredoc of miniIstio.sh (lines 51-103). -/
def mongoManifestsMini : List Resource :=
  [⟨K8sKind.service, "mongo"⟩, ⟨K8sKind.statefulSet, "mongo"⟩]

/-- Resources of the second heredoc of miniIstio.sh (lines 107-192). -/
def appManifestsMini : List Resource :=
  [⟨K8sKind.deployment, "ecommerce-backend"⟩,
   ⟨K8sKind.service, "ecommerce-backend"⟩,
   ⟨K8sKind.deployment, "ecommerce-frontend"⟩,
   ⟨K8sKind.service, "ecommerce-frontend"⟩]

/-- Resources of the third heredoc of miniIstio.sh (lines 196-237). -/
def gatewayManifestsMini : List Resource :=
  [⟨K8sKind.gateway, "ecommerce-gateway"⟩,
   ⟨K8sKind.virtualService, "ecommerce-virtualservice"⟩]

/-- Every resource deployment.sh applies, in apply order. -/
def allResourcesFull : List Resource := mongoManifestsFull ++ appManifestsFull

/-- Every resource miniIstio.sh applies, in apply order. -/
def allResourcesMini : List Resource :=
  mongoManifestsMini ++ appManifestsMini ++ gatewayManifestsMini

/-! ## Cluster provisioning stages

deployment.sh lines 24-41: probe the configured cluster with
`kubectl version --short`; if unreachable, install kind when missing and
create a cluster with the fixed name `ecommerce-cluster`.

miniIstio.sh lines 23-28: probe with `minikube status`; if not running,
start the (fixed, default-profile) minikube cluster. -/

/-- The kind cluster creation command of deployment.sh line 38. -/
def kindCreateCmd : String := "kind create cluster --name ecommerce-cluster"

/-- The minikube start command of miniIstio.sh line 25. -/
def minikubeStartCmd : String :=
  "minikube start --memory=4096 --cpus=2 --driver=docker"

/-- Commands run by the kind install branch, deployment.sh lines 30-32. -/
def installKindCmds : List String :=
  ["curl -Lo kind https://kind.sigs.k8s.io/dl/v0.20.0/kind-linux-amd64",
   "chmod +x kind", "mv kind /usr/local/bin/kind"]

/-- Commands deployment.sh lines 24-41 issue, as a function of whether
the probe `kubectl version --short` succeeded and whether kind is
already installed. -/
def ensureClusterKind (reachable kindPresent : Bool) : List String :=
  if reachable then []
  else (if kindPresent then [] else installKindCmds) ++ [kindCreateCmd]

/-- Commands miniIstio.sh lines 23-28 issue, as a function of whether
the probe `minikube status` succeeded. -/
def ensureClusterMinikube (running : Bool) : List String :=
  if running then [] else [minikubeStartCmd]

/-! ## Namespace reconciliation stages

deployment.sh lines 44-47 create the namespace only when
`kubectl get namespace helix` fails, and line 71 applies
`istio-injection=enabled --overwrite`.  miniIstio.sh lines 40-43 create
the namespace the same way and line 47 removes the label with
`istio-injection- --overwrite`.  With `--overwrite` (and for label
removal) kubectl label exits successfully for every prior label state. -/

/-- State of the target namespace: whether it exists, and the value of
its istio-injection label if any. -/
structure NsState where
  present : Bool
  injection : Option String
deriving DecidableEq

/-- The namespace creation command (deployment.sh line 46, miniIstio.sh
line 42). -/
def createNsCmd : String := "kubectl create namespace helix"

/-- The enable-injection label command of deployment.sh line 71. -/
def labelEnableCmd : String :=
  "kubectl label namespace helix istio-injection=enabled --overwrite"

/-- The remove-injection label command of miniIstio.sh line 47. -/
def labelRemoveCmd : String :=
  "kubectl label namespace helix istio-injection- --overwrite"

/-- Label value applied by deployment.sh line 71. -/
def enabledVal : String := "enabled"

/-- Create-if-absent step shared by both scripts: a freshly created
namespace carries no istio-injection label. -/
def createNsIfAbsent (s : NsState) : NsState × List String :=
  if s.present then (s, [])
  else (⟨true, none⟩, [createNsCmd])

/-- Namespace stage of deployment.sh (create if absent, then label
istio-injection=enabled with overwrite). -/
def nsReconcileFull (s : NsState) : NsState × List String :=
  let c := createNsIfAbsent s
  (⟨c.1.present, some enabledVal⟩, c.2 ++ [labelEnableCmd])

/-- Namespace stage of miniIstio.sh (create if absent, then remove the
istio-injection label). -/
def nsReconcileMini (s : NsState) : NsState × List String :=
  let c := createNsIfAbsent s
  (⟨c.1.present, none⟩, c.2 ++ [labelRemoveCmd])

/-! ## Label removal as a whole-cluster transition (for the frame claim)

The `kubectl label namespace helix istio-injection- --overwrite` command
of miniIstio.sh line 47 addresses only the namespace object: it rewrites
the namespace's label map (deleting the istio-injection key) and touches
no other object in the cluster. -/

/-- Cluster state seen by the label command: the namespace's label map
and every workload object (with its full manifest) living in it. -/
structure ClusterObjects where
  nsLabels : List (String × String)
  services : List ServiceSpec
  deployments : List DeploymentSpec
  statefulSets : List StatefulSetSpec
deriving DecidableEq

/-- The istio-injection label key. -/
def injectionKey : String := "istio-injection"

/-- Delete one key from a label map. -/
def removeLabel (ls : List (String × String)) (key : String) :
    List (String × String) :=
  ls.filter (fun kv => kv.1 != key)

/-- Effect of miniIstio.sh line 47 on the cluster: the namespace's label
map loses the istio-injection key; nothing else changes. -/
def kubectlRemoveInjection (c : ClusterObjects) : ClusterObjects :=
  { c with nsLabels := removeLabel c.nsLabels injectionKey }

/-! ## Backend datastore bootstrap (backend/db.js) -/

/-- The error message thrown by backend/db.js when MONGO_URI is unset. -/
def mongoUriErrMsg : String := "MONGO_URI environment variable not set"

/-- Embeds backend/db.js lines 3-6: read MONGO_URI from the process
environment and throw when it is missing (or empty, which is falsy in
the source's truthiness test); otherwise hand the URI to the connect
call. -/
def requireMongoUri (env : String → Option String) : Except String String :=
  match env mongoUriKey with
  | none => Except.error mongoUriErrMsg
  | some u => if u = "" then Except.error mongoUriErrMsg else Except.ok u

/-! ## StatefulSet persistent volume claims

Kubernetes provisions one PersistentVolumeClaim per volume claim
template and replica ordinal, named `template-name ++ name ++ ordinal`;
a claim whose name already exists is left alone, which is what makes a
re-apply of the same StatefulSet provision nothing new. -/

/-- Claim identities a StatefulSet asks for: one per template and
replica ordinal, with the stable derived name. -/
def pvcNames (s : StatefulSetSpec) : List String :=
  (List.range s.replicas).flatMap fun i =>
    s.volumeClaimTemplates.map fun t =>
      t.name ++ "-" ++ s.name ++ "-" ++ toString i

/-- Applying a StatefulSet to a cluster holding the claims `existing`:
only the claim names not already present are provisioned. -/
def provisionClaims (existing : List String) (s : StatefulSetSpec) :
    List String :=
  existing ++ (pvcNames s).filter (fun n => !existing.elem n)

/-! ## Script control flow

Both scripts are straight-line bash under `set -e` whose only branching
is of the shape `if ! probe; then ... fi`: a failing plain command
aborts the script, while a failing probe inside an if-condition merely
selects the then-branch.  `PCmd` is a command inside such a then-branch
(the scripts nest at most one further if, whose branch holds only plain
commands); `Cmd` is a top-level command. -/

/-- A command inside a then-branch: plain, or one more nested
if-not-probe block whose branch is a plain command sequence. -/
inductive PCmd where
  | plain (n : String)
  | ifNot1 (probe : String) (thens : List String)
deriving DecidableEq

/-- A top-level script command: plain, or an if-not-probe block. -/
inductive Cmd where
  | plain (n : String)
  | ifNot (probe : String) (thens : List PCmd)
deriving DecidableEq

/-- Run a straight-line sequence of plain commands under `set -e`:
the trace of commands started, and whether the sequence succeeded. -/
def runSeq (exec : String → Bool) : List String → List String × Bool
  | [] => ([], true)
  | n :: rest =>
    if exec n then
      let r := runSeq exec rest
      (n :: r.1, r.2)
    else ([n], false)

/-- Run a then-branch under `set -e`.  A probe of a nested if appears in
the trace but its failure only selects the branch. -/
def runPCmds (exec : String → Bool) : List PCmd → List String × Bool
  | [] => ([], true)
  | PCmd.plain n :: rest =>
    if exec n then
      let r := runPCmds exec rest
      (n :: r.1, r.2)
    else ([n], false)
  | PCmd.ifNot1 p ts :: rest =>
    if exec p then
      let r := runPCmds exec rest
      (p :: r.1, r.2)
    else
      let rt := runSeq exec ts
      if rt.2 then
        let r := runPCmds exec rest
        (p :: (rt.1 ++ r.1), r.2)
      else (p :: rt.1, false)

/-- Run a script under `set -e`: trace of commands started and overall
success.  `exec` gives each command's exit status. -/
def runCmds (exec : String → Bool) : List Cmd → List String × Bool
  | [] => ([], true)
  | Cmd.plain n :: rest =>
    if exec n then
      let r := runCmds exec rest
      (n :: r.1, r.2)
    else ([n], false)
  | Cmd.ifNot p ts :: rest =>
    if exec p then
      let r := runCmds exec rest
      (p :: r.1, r.2)
    else
      let rt := runPCmds exec ts
      if rt.2 then
        let r := runCmds exec rest
        (p :: (rt.1 ++ r.1), r.2)
      else (p :: rt.1, false)

/-- Every command name occurring in a plain sequence (identity). -/
def namesSeq (ns : List String) : List String := ns

/-- Every command name occurring in a then-branch. -/
def namesP : List PCmd → List String
  | [] => []
  | PCmd.plain n :: rest => n :: namesP rest
  | PCmd.ifNot1 p ts :: rest => p :: (ts ++ namesP rest)

/-- Every command name occurring in a script. -/
def namesCmds : List Cmd → List String
  | [] => []
  | Cmd.plain n :: rest => n :: namesCmds rest
  | Cmd.ifNot p ts :: rest => p :: (namesP ts ++ namesCmds rest)

/-- Every probe (if-condition) occurring in a then-branch. -/
def probesP : List PCmd → List String
  | [] => []
  | PCmd.plain _ :: rest => probesP rest
  | PCmd.ifNot1 p _ :: rest => p :: probesP rest

/-- Every probe (if-condition) occurring in a script, in order. -/
def scriptProbes : List Cmd → List String
  | [] => []
  | Cmd.plain _ :: rest => scriptProbes rest
  | Cmd.ifNot p ts :: rest => p :: (probesP ts ++ scriptProbes rest)

/-! ## The two scripts as command lists -/

/-- Probe of deployment.sh line 16. -/
def probeKubectl : String := "command -v kubectl"

/-- Probe of deployment.sh line 25. -/
def probeCluster : String := "kubectl version --short"

/-- Probe of deployment.sh line 28. -/
def probeKind : String := "command -v kind"

/-- Probe of deployment.sh line 44 and miniIstio.sh line 40. -/
def probeNamespace : String := "kubectl get namespace helix"

/-- Probe of deployment.sh line 52. -/
def probeIstioctl : String := "command -v istioctl"

/-- Probe of miniIstio.sh line 14. -/
def probeMinikube : String := "command -v minikube"

/-- Probe of miniIstio.sh line 23. -/
def probeMinikubeStatus : String := "minikube status"

/-- kubectl download command, deployment.sh line 18. -/
def curlKubectlCmd : String := "curl -LO https://dl.k8s.io/release/stable/bin/linux/amd64/kubectl"

/-- kubectl install command, deployment.sh line 19. -/
def installKubectlCmd : String := "install -o root -g root -m 0755 kubectl /usr/local/bin/kubectl"

/-- Istio CLI download pipeline, deployment.sh line 54. -/
def curlIstioCmd : String := "curl -L https://istio.io/downloadIstio | sh -"

/-- PATH export for the downloaded Istio CLI, deployment.sh lines 55-57. -/
def exportIstioPathCmd : String := "cd istio-dir; export PATH=istio-bin:PATH; cd /"

/-- Istio control-plane install, deployment.sh line 64. -/
def istioInstallCmd : String := "istioctl install --set profile=demo -y"

/-- NodePort patch of the ingress gateway Service, deployment.sh line 68. -/
def patchNodePortCmd : String := "kubectl -n istio-system patch svc istio-ingressgateway type NodePort"

/-- Apply of the mongo heredoc (deployment.sh lines 74-119, miniIstio.sh
lines 51-103). -/
def applyMongoCmd : String := "kubectl apply mongo-manifests"

/-- Apply of the app heredoc (deployment.sh lines 122-234, miniIstio.sh
lines 107-192). -/
def applyAppsCmd : String := "kubectl apply app-manifests"

/-- Apply of the gateway heredoc of miniIstio.sh (lines 196-237). -/
def applyGatewayCmd : String := "kubectl apply gateway-manifests"

/-- Node IP query, deployment.sh line 237. -/
def getNodeIpCmd : String := "kubectl get nodes jsonpath InternalIP"

/-- Ingress NodePort query (deployment.sh line 238, miniIstio.sh line 240). -/
def getNodePortCmd : String := "kubectl -n istio-system get svc istio-ingressgateway jsonpath nodePort"

/-- minikube download command, miniIstio.sh line 16. -/
def curlMinikubeCmd : String := "curl -LO https://storage.googleapis.com/minikube/releases/latest/minikube-linux-amd64"

/-- minikube install command, miniIstio.sh line 17. -/
def installMinikubeCmd : String := "install minikube-linux-amd64 /usr/local/bin/minikube"

/-- Istio addon enable, miniIstio.sh line 32. -/
def istioAddonCmd : String := "minikube addons enable istio"

/-- Wait for the istiod pods, miniIstio.sh line 36. -/
def waitIstiodCmd : String := "kubectl -n istio-system wait pod app=istiod --timeout=3m"

/-- Wait for the ingress gateway pods, miniIstio.sh line 37. -/
def waitIngressCmd : String := "kubectl -n istio-system wait pod app=istio-ingressgateway --timeout=3m"

/-- minikube ip query, miniIstio.sh line 241. -/
def minikubeIpCmd : String := "minikube ip"

/-- deployment.sh as a command list (lines 16-238). -/
def deploymentScript : List Cmd :=
  [Cmd.ifNot probeKubectl
     [PCmd.plain curlKubectlCmd, PCmd.plain installKubectlCmd],
   Cmd.ifNot probeCluster
     [PCmd.ifNot1 probeKind installKindCmds, PCmd.plain kindCreateCmd],
   Cmd.ifNot probeNamespace [PCmd.plain createNsCmd],
   Cmd.ifNot probeIstioctl
     [PCmd.plain curlIstioCmd, PCmd.plain exportIstioPathCmd],
   Cmd.plain istioInstallCmd,
   Cmd.plain patchNodePortCmd,
   Cmd.plain labelEnableCmd,
   Cmd.plain applyMongoCmd,
   Cmd.plain applyAppsCmd,
   Cmd.plain getNodeIpCmd,
   Cmd.plain getNodePortCmd]

/-- miniIstio.sh as a command list (lines 14-241). -/
def miniIstioScript : List Cmd :=
  [Cmd.ifNot probeMinikube
     [PCmd.plain curlMinikubeCmd, PCmd.plain installMinikubeCmd],
   Cmd.ifNot probeMinikubeStatus [PCmd.plain minikubeStartCmd],
   Cmd.plain istioAddonCmd,
   Cmd.plain waitIstiodCmd,
   Cmd.plain waitIngressCmd,
   Cmd.ifNot probeNamespace [PCmd.plain createNsCmd],
   Cmd.plain labelRemoveCmd,
   Cmd.plain applyMongoCmd,
   Cmd.plain applyAppsCmd,
   Cmd.plain applyGatewayCmd,
   Cmd.plain getNodePortCmd,
   Cmd.plain minikubeIpCmd]

/-- Which resources each apply command of deployment.sh applies. -/
def appliesOfFull (c : String) : List Resource :=
  if c = applyMongoCmd then mongoManifestsFull
  else if c = applyAppsCmd then appManifestsFull
  else []

/-- Which resources each apply command of miniIstio.sh applies. -/
def appliesOfMini (c : String) : List Resource :=
  if c = applyMongoCmd then mongoManifestsMini
  else if c = applyAppsCmd then appManifestsMini
  else if c = applyGatewayCmd then gatewayManifestsMini
  else []

/-! ## General lemmas about the script semantics -/

/-- Under `set -e`, running a concatenation runs the tail only when the
head succeeded. -/
theorem runCmds_append (exec : String → Bool) (as bs : List Cmd) :
    runCmds exec (as ++ bs) =
      if (runCmds exec as).2 then
        ((runCmds exec as).1 ++ (runCmds exec bs).1, (runCmds exec bs).2)
      else runCmds exec as := by
  induction as with
  | nil => simp [runCmds]
  | cons c rest ih =>
    cases c with
    | plain n =>
      by_cases h : exec n = true
      · simp only [List.cons_append, runCmds, h, if_true]
        by_cases h2 : (runCmds exec rest).2 = true <;> simp [ih, h2]
      · simp [runCmds, h]
    | ifNot p ts =>
      by_cases hp : exec p = true
      · simp only [List.cons_append, runCmds, hp, if_true]
        by_cases h2 : (runCmds exec rest).2 = true <;> simp [ih, h2]
      · by_cases ht : (runPCmds exec ts).2 = true
        · simp only [List.cons_append, runCmds, hp, if_false, ht, if_true,
            Bool.false_eq_true]
          by_cases h2 : (runCmds exec rest).2 = true <;>
            simp [ih, h2, List.append_assoc]
        · simp [runCmds, hp, ht]

/-- Every command in the trace of a plain sequence occurs in it. -/
theorem mem_runSeq_names (exec : String → Bool) (ns : List String)
    (x : String) (hx : x ∈ (runSeq exec ns).1) : x ∈ ns := by
  induction ns with
  | nil => simp [runSeq] at hx
  | cons n rest ih =>
    by_cases h : exec n = true
    · simp only [runSeq, h, if_true] at hx
      rcases List.mem_cons.1 hx with h1 | h1
      · exact List.mem_cons.2 (Or.inl h1)
      · exact List.mem_cons.2 (Or.inr (ih h1))
    · simp only [runSeq, h] at hx
      simp at hx
      exact List.mem_cons.2 (Or.inl hx)

/-- Every command in the trace of a then-branch occurs among its names. -/
theorem mem_runPCmds_names (exec : String → Bool) (ps : List PCmd)
    (x : String) (hx : x ∈ (runPCmds exec ps).1) : x ∈ namesP ps := by
  induction ps with
  | nil => simp [runPCmds] at hx
  | cons c rest ih =>
    cases c with
    | plain n =>
      by_cases h : exec n = true
      · simp only [runPCmds, h, if_true] at hx
        rcases List.mem_cons.1 hx with h1 | h1
        · simp [namesP, h1]
        · simp [namesP, ih h1]
      · simp only [runPCmds, h] at hx
        simp at hx
        simp [namesP, hx]
    | ifNot1 p ts =>
      by_cases hp : exec p = true
      · simp only [runPCmds, hp, if_true] at hx
        rcases List.mem_cons.1 hx with h1 | h1
        · simp [namesP, h1]
        · simp [namesP, ih h1]
      · by_cases ht : (runPCmds exec rest).2 = true
        all_goals {
          by_cases hs : (runSeq exec ts).2 = true
          all_goals {
            simp only [runPCmds, hp, hs, if_true, if_false, Bool.false_eq_true] at hx
            simp only [namesP, List.mem_cons, List.mem_append]
            rcases List.mem_cons.1 hx with h1 | h1
            · exact Or.inl h1
            · first
              | (rcases List.mem_append.1 h1 with h2 | h2
                 · exact Or.inr (Or.inl (mem_runSeq_names exec ts x h2))
                 · exact Or.inr (Or.inr (ih h2)))
              | exact Or.inr (Or.inl (mem_runSeq_names exec ts x h1))
          }
        }

/-- Every command in the trace of a script occurs among its names. -/
theorem mem_runCmds_names (exec : String → Bool) (cs : List Cmd)
    (x : String) (hx : x ∈ (runCmds exec cs).1) : x ∈ namesCmds cs := by
  induction cs with
  | nil => simp [runCmds] at hx
  | cons c rest ih =>
    cases c with
    | plain n =>
      by_cases h : exec n = true
      · simp only [runCmds, h, if_true] at hx
        rcases List.mem_cons.1 hx with h1 | h1
        · simp [namesCmds, h1]
        · simp [namesCmds, ih h1]
      · simp only [runCmds, h] at hx
        simp at hx
        simp [namesCmds, hx]
    | ifNot p ts =>
      by_cases hp : exec p = true
      · simp only [runCmds, hp, if_true] at hx
        rcases List.mem_cons.1 hx with h1 | h1
        · simp [namesCmds, h1]
        · simp [namesCmds, ih h1]
      · by_cases hs : (runPCmds exec ts).2 = true
        all_goals {
          simp only [runCmds, hp, hs, if_true, if_false, Bool.false_eq_true] at hx
          simp only [namesCmds, List.mem_cons, List.mem_append]
          rcases List.mem_cons.1 hx with h1 | h1
          · exact Or.inl h1
          · first
            | (rcases List.mem_append.1 h1 with h2 | h2
               · exact Or.inr (Or.inl (mem_runPCmds_names exec ts x h2))
               · exact Or.inr (Or.inr (ih h2)))
            | exact Or.inr (Or.inl (mem_runPCmds_names exec ts x h1))
        }

/-- When a probe succeeds, nothing of its then-branch reaches the trace:
every traced command is a name of the surrounding script or the probe. -/
theorem mem_trace_ifNot_true (exec : String → Bool) (pre post : List Cmd)
    (p : String) (ts : List PCmd) (hp : exec p = true) (x : String)
    (hx : x ∈ (runCmds exec (pre ++ Cmd.ifNot p ts :: post)).1) :
    x ∈ namesCmds pre ∨ x = p ∨ x ∈ namesCmds post := by
  rw [runCmds_append] at hx
  by_cases h2 : (runCmds exec pre).2 = true
  · simp only [h2, if_true] at hx
    rcases List.mem_append.1 hx with h1 | h1
    · exact Or.inl (mem_runCmds_names exec pre x h1)
    · simp only [runCmds, hp, if_true] at h1
      rcases List.mem_cons.1 h1 with h3 | h3
      · exact Or.inr (Or.inl h3)
      · exact Or.inr (Or.inr (mem_runCmds_names exec post x h3))
  · simp only [h2, if_false, Bool.false_eq_true] at hx
    exact Or.inl (mem_runCmds_names exec pre x hx)

/-- When a probe fails, the traced commands are names of the
surrounding script, the probe, or the then-branch's own trace. -/
theorem mem_trace_ifNot_false (exec : String → Bool) (pre post : List Cmd)
    (p : String) (ts : List PCmd) (hp : exec p = false) (x : String)
    (hx : x ∈ (runCmds exec (pre ++ Cmd.ifNot p ts :: post)).1) :
    x ∈ namesCmds pre ∨ x = p ∨ x ∈ (runPCmds exec ts).1
      ∨ x ∈ namesCmds post := by
  rw [runCmds_append] at hx
  by_cases h2 : (runCmds exec pre).2 = true
  · simp only [h2, if_true] at hx
    rcases List.mem_append.1 hx with h1 | h1
    · exact Or.inl (mem_runCmds_names exec pre x h1)
    · by_cases ht : (runPCmds exec ts).2 = true
      · simp only [runCmds, hp, ht, if_true, if_false, Bool.false_eq_true] at h1
        rcases List.mem_cons.1 h1 with h3 | h3
        · exact Or.inr (Or.inl h3)
        · rcases List.mem_append.1 h3 with h4 | h4
          · exact Or.inr (Or.inr (Or.inl h4))
          · exact Or.inr (Or.inr (Or.inr (mem_runCmds_names exec post x h4)))
      · simp only [runCmds, hp, ht, if_false, Bool.false_eq_true] at h1
        rcases List.mem_cons.1 h1 with h3 | h3
        · exact Or.inr (Or.inl h3)
        · exact Or.inr (Or.inr (Or.inl h3))
  · simp only [h2, if_false, Bool.false_eq_true] at hx
    exact Or.inl (mem_runCmds_names exec pre x hx)

/-- Inside a then-branch whose first entry is a nested if with a
succeeding probe, the nested branch contributes nothing to the trace. -/
theorem mem_runPCmds_ifNot1_true (exec : String → Bool)
    (post : List PCmd) (p : String) (ts : List String)
    (hp : exec p = true) (x : String)
    (hx : x ∈ (runPCmds exec (PCmd.ifNot1 p ts :: post)).1) :
    x = p ∨ x ∈ namesP post := by
  simp only [runPCmds, hp, if_true] at hx
  rcases List.mem_cons.1 hx with h1 | h1
  · exact Or.inl h1
  · exact Or.inr (mem_runPCmds_names exec post x h1)

/-! ## Helper lemmas for labels and volume claims -/

/-- Looking up a key after deleting it from a label map yields nothing. -/
theorem lookup_removeLabel (ls : List (String × String)) (key : String) :
    (removeLabel ls key).lookup key = none := by
  induction ls with
  | nil => rfl
  | cons kv rest ih =>
    rcases kv with ⟨k, v⟩
    by_cases h : (k == key) = true
    · have hk : k = key := by simpa using h
      have hstep : removeLabel ((k, v) :: rest) key = removeLabel rest key := by
        simp [removeLabel, List.filter_cons, hk]
      rw [hstep]
      exact ih
    · have hne : (k != key) = true := by simp [bne, h]
      have hstep : removeLabel ((k, v) :: rest) key
          = (k, v) :: removeLabel rest key := by
        simp [removeLabel, List.filter_cons, hne]
      have hke : (key == k) = false := by
        have hk : ¬k = key := by simpa using h
        simp [beq_eq_false_iff_ne]
        intro he
        exact hk he.symm
      rw [hstep]
      simp only [List.lookup, hke]
      exact ih

/-- Deleting a key keeps every other binding of a label map. -/
theorem mem_removeLabel (ls : List (String × String)) (key k v : String)
    (hk : k ≠ key) : (k, v) ∈ removeLabel ls key ↔ (k, v) ∈ ls := by
  simp only [removeLabel, List.mem_filter, bne, and_iff_left_iff_imp]
  intro _
  simpa using hk

/-- Re-applying a StatefulSet provisions no further claims: every claim
identity it asks for is already present after the first apply. -/
theorem provisionClaims_idem (l : List String) (s : StatefulSetSpec) :
    provisionClaims (provisionClaims l s) s = provisionClaims l s := by
  simp [provisionClaims]
  intro a ha hl2
  exact ⟨ha, hl2⟩

/-! ## Claim theorems -/

/-- C1: Route reconciliation constructs exactly one ingress gateway
accepting all hostnames on the plaintext HTTP entrypoint (port 80,
hosts "*"), and one routing table whose path-prefix rule for "/api"
(routed to the backend service) precedes the catch-all rule (routed to
the frontend service); hence every request path with prefix "/api"
resolves to the backend destination and any other path to the frontend
destination, and the catch-all rule is last in the table. -/
theorem c1_route_reconciliation :
    ((allResourcesFull.filter fun r => r.kind == K8sKind.gateway).length = 1
      ∧ (allResourcesMini.filter fun r => r.kind == K8sKind.gateway).length = 1
      ∧ (allResourcesFull.filter
          fun r => r.kind == K8sKind.virtualService).length = 1
      ∧ (allResourcesMini.filter
          fun r => r.kind == K8sKind.virtualService).length = 1)
    ∧ (ecommerceGatewayFull.servers = [⟨80, "http", "HTTP", ["*"]⟩]
      ∧ ecommerceGatewayMini = ecommerceGatewayFull)
    ∧ (ecommerceVirtualServiceFull.http
        = [⟨some apiPrefixStr, backendDest⟩, ⟨none, frontendDest⟩]
      ∧ ecommerceVirtualServiceMini = ecommerceVirtualServiceFull)
    ∧ ecommerceVirtualServiceFull.http.getLast? = some ⟨none, frontendDest⟩
    ∧ ∀ path : String,
        resolve ecommerceVirtualServiceFull.http path
          = some (if apiPrefixStr.isPrefixOf path then backendDest
                  else frontendDest) := by
  refine ⟨⟨by decide, by decide, by decide, by decide⟩, ⟨rfl, rfl⟩,
    ⟨rfl, rfl⟩, rfl, ?_⟩
  intro path
  by_cases h : apiPrefixStr.isPrefixOf path
  · simp [resolve, matchesRule, ecommerceVirtualServiceFull, h]
  · simp [resolve, matchesRule, ecommerceVirtualServiceFull, h]

/-- C2: Cluster provisioning first probes the configured cluster; when
it is reachable nothing is created, and only when it is unreachable is
exactly one cluster created, under a fixed deterministic name (the kind
cluster name ecommerce-cluster, or minikube's fixed default profile). -/
theorem c2_cluster_provisioning :
    (∀ k, ensureClusterKind true k = [])
    ∧ (∀ r k, kindCreateCmd ∈ ensureClusterKind r k ↔ r = false)
    ∧ (∀ r k, (ensureClusterKind r k).count kindCreateCmd ≤ 1)
    ∧ kindCreateCmd = "kind create cluster --name ecommerce-cluster"
    ∧ ensureClusterMinikube true = []
    ∧ (∀ r, minikubeStartCmd ∈ ensureClusterMinikube r ↔ r = false)
    ∧ (∀ r, (ensureClusterMinikube r).count minikubeStartCmd ≤ 1) := by
  refine ⟨fun k => by cases k <;> rfl,
    fun r k => by cases r <;> cases k <;> decide,
    fun r k => by cases r <;> cases k <;> decide, rfl, rfl,
    fun r => by cases r <;> decide,
    fun r => by cases r <;> decide⟩

/-- C3: Namespace reconciliation creates the namespace only when it is
absent and in every run converges the injection label to the desired
value (enabled in deployment.sh, removed in miniIstio.sh), for every
prior label state. -/
theorem c3_namespace_reconciliation :
    (∀ s : NsState,
      (nsReconcileFull s).1.injection = some enabledVal
      ∧ (nsReconcileFull s).1.present = true
      ∧ (createNsCmd ∈ (nsReconcileFull s).2 ↔ s.present = false)
      ∧ labelEnableCmd ∈ (nsReconcileFull s).2)
    ∧ (∀ s : NsState,
      (nsReconcileMini s).1.injection = none
      ∧ (nsReconcileMini s).1.present = true
      ∧ (createNsCmd ∈ (nsReconcileMini s).2 ↔ s.present = false)
      ∧ labelRemoveCmd ∈ (nsReconcileMini s).2) := by
  constructor <;> rintro ⟨p, i⟩ <;> cases p <;>
    simp [nsReconcileFull, nsReconcileMini, createNsIfAbsent] <;> decide

/-- C9: The datastore's persistent storage claim template has the fixed
name mongo-persistent-storage with ReadWriteOnce access and 1Gi
storage, identically in both variants, and yields a single stable claim
identity, so re-applying the StatefulSet provisions nothing new. -/
theorem c9_stable_pvc_template :
    mongoStatefulSetFull.volumeClaimTemplates
        = [⟨"mongo-persistent-storage", ["ReadWriteOnce"], "1Gi"⟩]
    ∧ mongoStatefulSetMini.volumeClaimTemplates
        = mongoStatefulSetFull.volumeClaimTemplates
    ∧ pvcNames mongoStatefulSetFull = ["mongo-persistent-storage-mongo-0"]
    ∧ pvcNames mongoStatefulSetMini = pvcNames mongoStatefulSetFull
    ∧ (∀ existing, provisionClaims (provisionClaims existing
          mongoStatefulSetFull) mongoStatefulSetFull
        = provisionClaims existing mongoStatefulSetFull)
    ∧ (∀ existing, provisionClaims (provisionClaims existing
          mongoStatefulSetMini) mongoStatefulSetMini
        = provisionClaims existing mongoStatefulSetMini) :=
  ⟨rfl, rfl, by decide, rfl,
    fun l => provisionClaims_idem l mongoStatefulSetFull,
    fun l => provisionClaims_idem l mongoStatefulSetMini⟩

/-- C10: In both variants the MONGO_URI value injected into the backend
workload is character-for-character the URI printed in the final
endpoint report, namely the datastore's internal DNS address
mongodb://mongo.helix.svc.cluster.local:27017/ecommerceDB. -/
theorem c10_uri_report_consistency :
    backendMongoUriFull = reportedMongoUriFull
    ∧ backendMongoUriMini = reportedMongoUriMini
    ∧ backendMongoUriMini = backendMongoUriFull
    ∧ backendDeploymentFull.container.env = [⟨mongoUriKey, backendMongoUriFull⟩]
    ∧ backendDeploymentMini.container.env = [⟨mongoUriKey, backendMongoUriMini⟩]
    ∧ backendMongoUriFull
        = "mongodb://mongo.helix.svc.cluster.local:27017/ecommerceDB" :=
  ⟨rfl, rfl, rfl, rfl, rfl, by decide⟩

/-- C5: The backend workload carries exactly one environment binding, a
datastore connection string of the form
protocol://service-dns-name:port/database-name; the backend's datastore
module raises an error when the binding is absent; and the only
conditions either orchestrator script tests are its tool, cluster and
namespace probes, none of which reads the binding. -/
theorem c5_mongo_uri_binding :
    backendDeploymentFull.container.env = [⟨mongoUriKey, backendMongoUriFull⟩]
    ∧ backendDeploymentMini.container.env = [⟨mongoUriKey, backendMongoUriMini⟩]
    ∧ (∃ protocol serviceDns database : String, ∃ port : Nat,
        backendMongoUriFull
          = protocol ++ "://" ++ serviceDns ++ ":" ++ toString port
              ++ "/" ++ database)
    ∧ (∀ env : String → Option String, env mongoUriKey = none →
        requireMongoUri env = Except.error mongoUriErrMsg)
    ∧ scriptProbes deploymentScript
        = [probeKubectl, probeCluster, probeKind, probeNamespace, probeIstioctl]
    ∧ scriptProbes miniIstioScript
        = [probeMinikube, probeMinikubeStatus, probeNamespace] := by
  refine ⟨rfl, rfl,
    ⟨"mongodb", "mongo.helix.svc.cluster.local", "ecommerceDB", 27017,
      by decide⟩, ?_, rfl, rfl⟩
  intro env h
  simp [requireMongoUri, h]

/-- Witness for C5: with an empty process environment (MONGO_URI not
set), the datastore bootstrap fails with the source's error message. -/
theorem c5_mongo_uri_binding_witness :
    requireMongoUri (fun _ => none) = Except.error mongoUriErrMsg :=
  c5_mongo_uri_binding.2.2.2.1 (fun _ => none) rfl

/-- C8: Disabling injection on a namespace previously set to enabled
removes the istio-injection label (other labels kept) and leaves every
workload object in the cluster untouched. -/
theorem c8_injection_disable_frame :
    ∀ c : ClusterObjects, c.nsLabels.lookup injectionKey = some enabledVal →
      (kubectlRemoveInjection c).nsLabels.lookup injectionKey = none
      ∧ (kubectlRemoveInjection c).services = c.services
      ∧ (kubectlRemoveInjection c).deployments = c.deployments
      ∧ (kubectlRemoveInjection c).statefulSets = c.statefulSets
      ∧ ∀ k v : String, k ≠ injectionKey →
          ((k, v) ∈ (kubectlRemoveInjection c).nsLabels ↔ (k, v) ∈ c.nsLabels) :=
  fun c _ =>
    ⟨lookup_removeLabel c.nsLabels injectionKey, rfl, rfl, rfl,
      fun k v hk => mem_removeLabel c.nsLabels injectionKey k v hk⟩

/-- A converged cluster as miniIstio.sh finds it when deployment.sh ran
first: injection enabled on the namespace and the workloads present. -/
def sampleCluster : ClusterObjects :=
  ⟨[(injectionKey, enabledVal)], [mongoServiceMini, backendServiceMini],
    [backendDeploymentMini, frontendDeploymentMini], [mongoStatefulSetMini]⟩

/-- Witness for C8 on a concrete enabled-labelled cluster. -/
theorem c8_injection_disable_frame_witness :
    (kubectlRemoveInjection sampleCluster).nsLabels.lookup injectionKey = none
    ∧ (kubectlRemoveInjection sampleCluster).deployments
        = sampleCluster.deployments :=
  ⟨(c8_injection_disable_frame sampleCluster rfl).1,
    (c8_injection_disable_frame sampleCluster rfl).2.2.1⟩

/-! ## Script segments used to state the trace claims -/

/-- Then-branch of the kubectl install check (deployment.sh lines 16-22). -/
def kubectlBranch : List PCmd :=
  [PCmd.plain curlKubectlCmd, PCmd.plain installKubectlCmd]

/-- Then-branch of the cluster reachability check (deployment.sh lines
25-38). -/
def clusterBranch : List PCmd :=
  [PCmd.ifNot1 probeKind installKindCmds, PCmd.plain kindCreateCmd]

/-- deployment.sh after the kubectl check. -/
def deployAfterKubectl : List Cmd :=
  [Cmd.ifNot probeCluster clusterBranch,
   Cmd.ifNot probeNamespace [PCmd.plain createNsCmd],
   Cmd.ifNot probeIstioctl
     [PCmd.plain curlIstioCmd, PCmd.plain exportIstioPathCmd],
   Cmd.plain istioInstallCmd,
   Cmd.plain patchNodePortCmd,
   Cmd.plain labelEnableCmd,
   Cmd.plain applyMongoCmd,
   Cmd.plain applyAppsCmd,
   Cmd.plain getNodeIpCmd,
   Cmd.plain getNodePortCmd]

/-- deployment.sh before the cluster reachability check. -/
def deployBeforeCluster : List Cmd := [Cmd.ifNot probeKubectl kubectlBranch]

/-- deployment.sh after the cluster reachability check. -/
def deployAfterCluster : List Cmd :=
  [Cmd.ifNot probeNamespace [PCmd.plain createNsCmd],
   Cmd.ifNot probeIstioctl
     [PCmd.plain curlIstioCmd, PCmd.plain exportIstioPathCmd],
   Cmd.plain istioInstallCmd,
   Cmd.plain patchNodePortCmd,
   Cmd.plain labelEnableCmd,
   Cmd.plain applyMongoCmd,
   Cmd.plain applyAppsCmd,
   Cmd.plain getNodeIpCmd,
   Cmd.plain getNodePortCmd]

/-- deployment.sh before the istioctl check. -/
def deployBeforeIstioctl : List Cmd :=
  [Cmd.ifNot probeKubectl kubectlBranch,
   Cmd.ifNot probeCluster clusterBranch,
   Cmd.ifNot probeNamespace [PCmd.plain createNsCmd]]

/-- deployment.sh after the istioctl check. -/
def deployAfterIstioctl : List Cmd :=
  [Cmd.plain istioInstallCmd,
   Cmd.plain patchNodePortCmd,
   Cmd.plain labelEnableCmd,
   Cmd.plain applyMongoCmd,
   Cmd.plain applyAppsCmd,
   Cmd.plain getNodeIpCmd,
   Cmd.plain getNodePortCmd]

/-- deployment.sh before the mongo manifest apply. -/
def deployPreApply : List Cmd :=
  [Cmd.ifNot probeKubectl kubectlBranch,
   Cmd.ifNot probeCluster clusterBranch,
   Cmd.ifNot probeNamespace [PCmd.plain createNsCmd],
   Cmd.ifNot probeIstioctl
     [PCmd.plain curlIstioCmd, PCmd.plain exportIstioPathCmd],
   Cmd.plain istioInstallCmd,
   Cmd.plain patchNodePortCmd,
   Cmd.plain labelEnableCmd]

/-- deployment.sh after the mongo manifest apply. -/
def deployPostApply : List Cmd :=
  [Cmd.plain applyAppsCmd, Cmd.plain getNodeIpCmd, Cmd.plain getNodePortCmd]

/-- miniIstio.sh after the minikube install check. -/
def miniAfterMinikube : List Cmd :=
  [Cmd.ifNot probeMinikubeStatus [PCmd.plain minikubeStartCmd],
   Cmd.plain istioAddonCmd,
   Cmd.plain waitIstiodCmd,
   Cmd.plain waitIngressCmd,
   Cmd.ifNot probeNamespace [PCmd.plain createNsCmd],
   Cmd.plain labelRemoveCmd,
   Cmd.plain applyMongoCmd,
   Cmd.plain applyAppsCmd,
   Cmd.plain applyGatewayCmd,
   Cmd.plain getNodePortCmd,
   Cmd.plain minikubeIpCmd]

/-- miniIstio.sh before the readiness waits. -/
def miniPreWait : List Cmd :=
  [Cmd.ifNot probeMinikube
     [PCmd.plain curlMinikubeCmd, PCmd.plain installMinikubeCmd],
   Cmd.ifNot probeMinikubeStatus [PCmd.plain minikubeStartCmd],
   Cmd.plain istioAddonCmd]

/-- miniIstio.sh after the readiness waits. -/
def miniPostWait : List Cmd :=
  [Cmd.ifNot probeNamespace [PCmd.plain createNsCmd],
   Cmd.plain labelRemoveCmd,
   Cmd.plain applyMongoCmd,
   Cmd.plain applyAppsCmd,
   Cmd.plain applyGatewayCmd,
   Cmd.plain getNodePortCmd,
   Cmd.plain minikubeIpCmd]

/-- miniIstio.sh before the mongo manifest apply. -/
def miniPreApply : List Cmd :=
  [Cmd.ifNot probeMinikube
     [PCmd.plain curlMinikubeCmd, PCmd.plain installMinikubeCmd],
   Cmd.ifNot probeMinikubeStatus [PCmd.plain minikubeStartCmd],
   Cmd.plain istioAddonCmd,
   Cmd.plain waitIstiodCmd,
   Cmd.plain waitIngressCmd,
   Cmd.ifNot probeNamespace [PCmd.plain createNsCmd],
   Cmd.plain labelRemoveCmd]

/-- miniIstio.sh after the mongo manifest apply. -/
def miniPostApply : List Cmd :=
  [Cmd.plain applyAppsCmd, Cmd.plain applyGatewayCmd,
   Cmd.plain getNodePortCmd, Cmd.plain minikubeIpCmd]

/-- Identity of the mongo Service among applied resources. -/
def mongoServiceRes : Resource := ⟨K8sKind.service, "mongo"⟩

/-- Identity of the backend Deployment among applied resources. -/
def backendDeployRes : Resource := ⟨K8sKind.deployment, "ecommerce-backend"⟩

/-- In a script of the shape pre ++ plain a :: post where the command b
never occurs in pre, every trace containing b has an occurrence of a
strictly before every occurrence of b. -/
theorem trace_order_of_split (exec : String → Bool) (pre post : List Cmd)
    (a b : String) (hab : b ≠ a) (hpre : b ∉ namesCmds pre)
    (hmem : b ∈ (runCmds exec (pre ++ Cmd.plain a :: post)).1) :
    ∃ t1 t2, (runCmds exec (pre ++ Cmd.plain a :: post)).1 = t1 ++ a :: t2
      ∧ b ∉ t1 ∧ b ∈ t2 := by
  rw [runCmds_append] at hmem ⊢
  by_cases h2 : (runCmds exec pre).2 = true
  · simp only [h2, if_true] at hmem ⊢
    by_cases h3 : exec a = true
    · simp only [runCmds, h3, if_true] at hmem ⊢
      refine ⟨(runCmds exec pre).1,
        (runCmds exec post).1, rfl, ?_, ?_⟩
      · intro hb
        exact hpre (mem_runCmds_names exec pre b hb)
      · rcases List.mem_append.1 hmem with hm | hm
        · exact absurd (mem_runCmds_names exec pre b hm) hpre
        · rcases List.mem_cons.1 hm with hm2 | hm2
          · exact absurd hm2 hab
          · exact hm2
    · have h3f : exec a = false := by
        cases hb : exec a
        · rfl
        · exact absurd hb h3
      simp only [runCmds, h3f, Bool.false_eq_true, if_false] at hmem
      rcases List.mem_append.1 hmem with hm | hm
      · exact absurd (mem_runCmds_names exec pre b hm) hpre
      · rcases List.mem_cons.1 hm with hm2 | hm2
        · exact absurd hm2 hab
        · cases hm2
  · simp only [h2, if_false, Bool.false_eq_true] at hmem
    exact absurd (mem_runCmds_names exec pre b hmem) hpre

/-- C4: Under set -e the pipeline is fail-fast: a failed leading
segment prevents every later command from executing; in particular if
either readiness wait of miniIstio.sh fails (control plane or ingress
never ready within the timeout), the run aborts and neither the
namespace creation nor the label command runs. -/
theorem c4_fail_fast :
    (∀ (exec : String → Bool) (pre post : List Cmd),
        (runCmds exec pre).2 = false →
        runCmds exec (pre ++ post) = runCmds exec pre)
    ∧ (∀ exec : String → Bool,
        exec waitIstiodCmd = false ∨ exec waitIngressCmd = false →
        createNsCmd ∉ (runCmds exec miniIstioScript).1
        ∧ labelRemoveCmd ∉ (runCmds exec miniIstioScript).1
        ∧ (runCmds exec miniIstioScript).2 = false) := by
  constructor
  · intro exec pre post h
    rw [runCmds_append]
    simp [h]
  · intro exec h
    have hn1 : createNsCmd ∉ namesCmds miniPreWait := by decide
    have hn2 : labelRemoveCmd ∉ namesCmds miniPreWait := by decide
    have hsplit : miniIstioScript
        = miniPreWait ++ (Cmd.plain waitIstiodCmd
            :: Cmd.plain waitIngressCmd :: miniPostWait) := rfl
    rw [hsplit, runCmds_append]
    by_cases h2 : (runCmds exec miniPreWait).2 = true
    · simp only [h2, if_true]
      by_cases h3 : exec waitIstiodCmd = true
      · have h4 : exec waitIngressCmd = false := by
          rcases h with h | h
          · rw [h3] at h
            exact absurd h (by decide)
          · exact h
        simp only [runCmds, h3, h4, if_true, Bool.false_eq_true, if_false]
        refine ⟨?_, ?_, by trivial⟩
        · intro hmem
          rcases List.mem_append.1 hmem with hm | hm
          · exact hn1 (mem_runCmds_names exec miniPreWait _ hm)
          · exact absurd hm (by decide)
        · intro hmem
          rcases List.mem_append.1 hmem with hm | hm
          · exact hn2 (mem_runCmds_names exec miniPreWait _ hm)
          · exact absurd hm (by decide)
      · have h3f : exec waitIstiodCmd = false := by
          cases hb : exec waitIstiodCmd
          · rfl
          · exact absurd hb h3
        simp only [runCmds, h3f, Bool.false_eq_true, if_false]
        refine ⟨?_, ?_, by trivial⟩
        · intro hmem
          rcases List.mem_append.1 hmem with hm | hm
          · exact hn1 (mem_runCmds_names exec miniPreWait _ hm)
          · exact absurd hm (by decide)
        · intro hmem
          rcases List.mem_append.1 hmem with hm | hm
          · exact hn2 (mem_runCmds_names exec miniPreWait _ hm)
          · exact absurd hm (by decide)
    · rw [if_neg h2]
      have hfalse : (runCmds exec miniPreWait).2 = false := by
        cases hb : (runCmds exec miniPreWait).2
        · rfl
        · exact absurd hb h2
      refine ⟨?_, ?_, hfalse⟩
      · intro hmem
        exact hn1 (mem_runCmds_names exec miniPreWait _ hmem)
      · intro hmem
        exact hn2 (mem_runCmds_names exec miniPreWait _ hmem)

/-- Witness for C4: a concrete failing prefix halts a concatenation,
and a run in which the istiod readiness wait fails (every command
failing here) never creates the namespace. -/
theorem c4_fail_fast_witness :
    ((runCmds (fun _ => false) [Cmd.plain istioAddonCmd]).2 = false
      ∧ runCmds (fun _ => false)
          ([Cmd.plain istioAddonCmd] ++ [Cmd.plain minikubeIpCmd])
        = runCmds (fun _ => false) [Cmd.plain istioAddonCmd])
    ∧ createNsCmd ∉ (runCmds (fun _ => false) miniIstioScript).1 :=
  ⟨⟨rfl, c4_fail_fast.1 (fun _ => false)
      [Cmd.plain istioAddonCmd] [Cmd.plain minikubeIpCmd] rfl⟩,
    (c4_fail_fast.2 (fun _ => false) (Or.inl rfl)).1⟩

/-- C6: In every run of either script, the mongo Service is applied
strictly before the apply step carrying the backend Deployment (the
workload that references the datastore by its internal DNS name): any
trace containing the app apply has the mongo apply before every
occurrence of it, the mongo apply carries the mongo Service, and the
app apply carries the backend Deployment. -/
theorem c6_service_applied_first :
    (∀ exec : String → Bool,
        applyAppsCmd ∈ (runCmds exec deploymentScript).1 →
        ∃ t1 t2, (runCmds exec deploymentScript).1
            = t1 ++ applyMongoCmd :: t2
          ∧ applyAppsCmd ∉ t1 ∧ applyAppsCmd ∈ t2)
    ∧ (∀ exec : String → Bool,
        applyAppsCmd ∈ (runCmds exec miniIstioScript).1 →
        ∃ t1 t2, (runCmds exec miniIstioScript).1
            = t1 ++ applyMongoCmd :: t2
          ∧ applyAppsCmd ∉ t1 ∧ applyAppsCmd ∈ t2)
    ∧ mongoServiceRes ∈ appliesOfFull applyMongoCmd
    ∧ backendDeployRes ∈ appliesOfFull applyAppsCmd
    ∧ mongoServiceRes ∈ appliesOfMini applyMongoCmd
    ∧ backendDeployRes ∈ appliesOfMini applyAppsCmd
    ∧ mongoServiceRes = ⟨K8sKind.service, mongoServiceFull.name⟩
    ∧ backendDeployRes = ⟨K8sKind.deployment, backendDeploymentFull.name⟩ := by
  refine ⟨?_, ?_, by decide, by decide, by decide, by decide, rfl, rfl⟩
  · intro exec hmem
    have hsplit : deploymentScript
        = deployPreApply ++ Cmd.plain applyMongoCmd :: deployPostApply := rfl
    rw [hsplit] at hmem ⊢
    exact trace_order_of_split exec deployPreApply deployPostApply
      applyMongoCmd applyAppsCmd (by decide) (by decide) hmem
  · intro exec hmem
    have hsplit : miniIstioScript
        = miniPreApply ++ Cmd.plain applyMongoCmd :: miniPostApply := rfl
    rw [hsplit] at hmem ⊢
    exact trace_order_of_split exec miniPreApply miniPostApply
      applyMongoCmd applyAppsCmd (by decide) (by decide) hmem

/-- Witness for C6: in the all-successful run of deployment.sh, the
mongo apply precedes the app apply in the trace. -/
theorem c6_service_applied_first_witness :
    ∃ t1 t2, (runCmds (fun _ => true) deploymentScript).1
        = t1 ++ applyMongoCmd :: t2
      ∧ applyAppsCmd ∉ t1 ∧ applyAppsCmd ∈ t2 :=
  c6_service_applied_first.1 (fun _ => true) (by decide)

/-- C7: Tool installation is idempotent: when a required binary is
present (its probe succeeds), none of its fetch or install commands
appears in any trace of the script; equivalently the install path runs
only when the binary is absent. -/
theorem c7_tool_install_idempotent :
    (∀ exec : String → Bool, exec probeKubectl = true →
        curlKubectlCmd ∉ (runCmds exec deploymentScript).1
        ∧ installKubectlCmd ∉ (runCmds exec deploymentScript).1)
    ∧ (∀ exec : String → Bool, exec probeKind = true →
        ∀ c ∈ installKindCmds, c ∉ (runCmds exec deploymentScript).1)
    ∧ (∀ exec : String → Bool, exec probeIstioctl = true →
        curlIstioCmd ∉ (runCmds exec deploymentScript).1
        ∧ exportIstioPathCmd ∉ (runCmds exec deploymentScript).1)
    ∧ (∀ exec : String → Bool, exec probeMinikube = true →
        curlMinikubeCmd ∉ (runCmds exec miniIstioScript).1
        ∧ installMinikubeCmd ∉ (runCmds exec miniIstioScript).1) := by
  have hsplitK : deploymentScript
      = [] ++ Cmd.ifNot probeKubectl kubectlBranch :: deployAfterKubectl := rfl
  have hsplitC : deploymentScript
      = deployBeforeCluster
          ++ Cmd.ifNot probeCluster clusterBranch :: deployAfterCluster := rfl
  have hsplitI : deploymentScript
      = deployBeforeIstioctl
          ++ Cmd.ifNot probeIstioctl
              [PCmd.plain curlIstioCmd, PCmd.plain exportIstioPathCmd]
            :: deployAfterIstioctl := rfl
  have hsplitM : miniIstioScript
      = [] ++ Cmd.ifNot probeMinikube
            [PCmd.plain curlMinikubeCmd, PCmd.plain installMinikubeCmd]
          :: miniAfterMinikube := rfl
  refine ⟨?_, ?_, ?_, ?_⟩
  · intro exec hp
    constructor <;> intro hmem <;> rw [hsplitK] at hmem <;>
      rcases mem_trace_ifNot_true exec [] deployAfterKubectl probeKubectl
        kubectlBranch hp _ hmem with h | h | h <;>
      first
        | cases h
        | exact absurd h (by decide)
  · intro exec hp c hc hmem
    rw [hsplitC] at hmem
    by_cases hcl : exec probeCluster = true
    · have D := mem_trace_ifNot_true exec deployBeforeCluster
        deployAfterCluster probeCluster clusterBranch hcl c hmem
      simp only [installKindCmds, List.mem_cons,
        List.not_mem_nil, or_false] at hc
      rcases hc with rfl | rfl | rfl <;>
        rcases D with h | h | h <;> exact absurd h (by decide)
    · have hclf : exec probeCluster = false := by
        cases hb : exec probeCluster
        · rfl
        · exact absurd hb hcl
      have D := mem_trace_ifNot_false exec deployBeforeCluster
        deployAfterCluster probeCluster clusterBranch hclf c hmem
      simp only [installKindCmds, List.mem_cons,
        List.not_mem_nil, or_false] at hc
      rcases hc with rfl | rfl | rfl <;>
        (rcases D with h | h | h | h
         · exact absurd h (by decide)
         · exact absurd h (by decide)
         · rcases mem_runPCmds_ifNot1_true exec [PCmd.plain kindCreateCmd]
             probeKind installKindCmds hp _ h with h2 | h2 <;>
             exact absurd h2 (by decide)
         · exact absurd h (by decide))
  · intro exec hp
    constructor <;> intro hmem <;> rw [hsplitI] at hmem <;>
      rcases mem_trace_ifNot_true exec deployBeforeIstioctl
        deployAfterIstioctl probeIstioctl
        [PCmd.plain curlIstioCmd, PCmd.plain exportIstioPathCmd]
        hp _ hmem with h | h | h <;>
      exact absurd h (by decide)
  · intro exec hp
    constructor <;> intro hmem <;> rw [hsplitM] at hmem <;>
      rcases mem_trace_ifNot_true exec [] miniAfterMinikube probeMinikube
        [PCmd.plain curlMinikubeCmd, PCmd.plain installMinikubeCmd]
        hp _ hmem with h | h | h <;>
      first
        | cases h
        | exact absurd h (by decide)

/-- Witness for C7: on a host where every probe succeeds (all tools
present), no fetch or install command reaches either trace. -/
theorem c7_tool_install_idempotent_witness :
    curlKubectlCmd ∉ (runCmds (fun _ => true) deploymentScript).1
    ∧ kindCreateCmd ≠ curlIstioCmd
    ∧ curlIstioCmd ∉ (runCmds (fun _ => true) deploymentScript).1
    ∧ curlMinikubeCmd ∉ (runCmds (fun _ => true) miniIstioScript).1 :=
  ⟨(c7_tool_install_idempotent.1 (fun _ => true) rfl).1,
    by decide,
    (c7_tool_install_idempotent.2.2.1 (fun _ => true) rfl).1,
    (c7_tool_install_idempotent.2.2.2 (fun _ => true) rfl).1⟩

end EcommerceStore
